import Mathlib

/-!
Shallow embedding of the videosync relay server (`server.js`, class
`VideoSyncServer`) and proofs about its room registry, message router,
broadcast primitive, disconnection handling, heartbeat sweep and
empty-room reclamation.

Modelling conventions:
* A WebSocket object `ws` is a `Conn` record; JavaScript object identity
  is modelled by the numeric field `cid` (two `Conn`s denote the same
  object iff their `cid`s agree).
* `this.rooms` (a `Map roomId -> Set<ws>`) is an association list
  `List (String × Room)`; a JS `Set` keeps insertion order, so the member
  set is a `List Conn` without duplicate `cid`s, `add` appends when absent
  and `delete` filters by identity.
* `ws.send(...)` / broadcast deliveries are recorded as a list of
  `(recipient cid, message)` pairs, in the order the code issues them.
* `Date.now()` / `new Date()` are an explicit `now : Nat` parameter
  (epoch milliseconds); `now - emptySince` is computed in `Int` exactly
  as JS number subtraction behaves on these values.
* `stats.currentConnections` is an `Int` because the code decrements it
  unconditionally and JS numbers go negative.
-/

set_option autoImplicit false

namespace VideoSync

/-- `WebSocket.OPEN` readyState constant of the `ws` library. -/
def WS_OPEN : Nat := 1

/-- One WebSocket connection with the fields the server attaches to it
(`ws.clientId`, `ws.roomId`, `ws.isAlive`, `ws.joinTime`) plus its
`readyState` and its object identity `cid`. -/
structure Conn where
  cid : Nat
  clientId : String
  roomId : String
  isAlive : Bool
  readyState : Nat
  joinTime : Nat
  deriving DecidableEq, Repr

/-- A room: the `Set<ws>` members in insertion order together with the
`createdAt` and optional `emptySince` properties the server stores on
the set object. -/
structure Room where
  members : List Conn
  createdAt : Nat
  emptySince : Option Nat
  deriving DecidableEq, Repr

/-- The `this.stats` aggregate counters. -/
structure Stats where
  totalConnections : Nat
  currentConnections : Int
  roomsCreated : Nat
  messagesProcessed : Nat
  deriving DecidableEq, Repr

/-- The server state shared by all handlers: the room registry and the
aggregate counters. -/
structure ServerState where
  rooms : List (String × Room)
  stats : Stats
  deriving DecidableEq, Repr

/-- Outbound wire messages (the JSON objects the server sends), with the
fields each `ws.send` / broadcast site populates.  `control` covers the
verbatim re-broadcast of `play` / `pause` / `seek` / `volume_change`. -/
inductive Msg where
  | connected (clientId roomId : String) (roomSize : Nat) (timestamp : Nat)
  | user_joined (clientId : String) (roomSize : Nat) (timestamp : Nat)
  | room_info (clients : List String) (roomSize : Nat) (timestamp : Nat)
  | user_left (clientId : String) (roomSize : Nat) (timestamp : Nat)
  | pong (timestamp : Nat) (original : Option Nat)
  | sync_started (clientId : String) (playerId : Option String) (timestamp : Nat)
  | sync_stopped (clientId : String) (timestamp : Nat)
  | control (ctype : String) (clientId : String) (timestamp : Nat) (data : Option String)
  | player_state_update (clientId : String) (timestamp : Nat) (state changes : Option String)
  | sync_request (clientId : String) (timestamp : Nat)
  | sync_response (clientId : String) (timestamp : Nat) (state : Option String)
  | chat_message (clientId : String) (timestamp : Nat) (message : Option String) (username : String)
  | error (error : String) (timestamp : Nat)
  deriving DecidableEq, Repr

/-- A delivery: `(recipient cid, message)`. -/
abbrev Send := Nat × Msg

/-- An inbound wire message after JSON parsing: the `type` field plus the
optional payload fields the handlers read. -/
structure InMsg where
  type : String
  timestamp : Option Nat
  playerId : Option String
  data : Option String
  state : Option String
  changes : Option String
  message : Option String
  username : Option String
  deriving DecidableEq, Repr

/-- `this.rooms.get(roomId)` on the association-list registry. -/
def roomsGet : List (String × Room) → String → Option Room
  | [], _ => none
  | (k, v) :: rest, roomId => if k = roomId then some v else roomsGet rest roomId

/-- `this.rooms.set(roomId, r)`: replace the first binding of `roomId`,
or append a new binding. -/
def roomsSet : List (String × Room) → String → Room → List (String × Room)
  | [], roomId, r => [(roomId, r)]
  | (k, v) :: rest, roomId, r =>
      if k = roomId then (k, r) :: rest else (k, v) :: roomsSet rest roomId r

/-- `room.add(ws)` on the member `Set`: no-op when an element with the
same identity is present, otherwise append. -/
def setAdd (members : List Conn) (ws : Conn) : List Conn :=
  if members.any (fun c => c.cid == ws.cid) then members else members ++ [ws]

/-- `room.delete(ws)` on the member `Set`: remove by object identity. -/
def setDelete (members : List Conn) (ws : Conn) : List Conn :=
  members.filter (fun c => c.cid != ws.cid)

/-- `client !== excludeWs`: `none` models passing `null` (nothing
excluded). -/
def excludeCheck : Option Nat → Conn → Bool
  | none, _ => true
  | some e, c => c.cid != e

/-- `broadcastToRoom(roomId, excludeWs, message)`: deliver `message` to
every member of the room that is not the excluded connection and whose
transport is `OPEN`; missing room sends nothing. -/
def broadcastToRoom (st : ServerState) (roomId : String) (exclude : Option Nat)
    (msg : Msg) : List Send :=
  match roomsGet st.rooms roomId with
  | none => []
  | some room =>
      (room.members.filter
        (fun c => excludeCheck exclude c && c.readyState == WS_OPEN)).map
        (fun c => (c.cid, msg))

/-- `joinRoom(ws, roomId, clientId)`: create the room if absent
(stamping `createdAt`, incrementing `roomsCreated`), add the connection,
then send the `connected` ack, the `user_joined` broadcast (excluding
the joiner) and the `room_info` snapshot, in that order. -/
def joinRoom (st : ServerState) (ws : Conn) (roomId clientId : String) (now : Nat) :
    ServerState × List Send :=
  let fresh : Bool := (roomsGet st.rooms roomId).isNone
  let room0 : Room :=
    match roomsGet st.rooms roomId with
    | some r => r
    | none => { members := [], createdAt := now, emptySince := none }
  let stats1 : Stats :=
    if fresh then { st.stats with roomsCreated := st.stats.roomsCreated + 1 } else st.stats
  let room2 : Room := { room0 with members := setAdd room0.members ws }
  let st2 : ServerState := { rooms := roomsSet st.rooms roomId room2, stats := stats1 }
  let ack : Send := (ws.cid, Msg.connected clientId roomId room2.members.length now)
  let bsends : List Send :=
    broadcastToRoom st2 roomId (some ws.cid)
      (Msg.user_joined clientId room2.members.length now)
  let roomClients : List String :=
    (room2.members.filter
      (fun c => c.cid != ws.cid && c.readyState == WS_OPEN)).map Conn.clientId
  let info : Send := (ws.cid, Msg.room_info roomClients room2.members.length now)
  (st2, ack :: bsends ++ [info])

/-- `handleDisconnection(ws, code, reason)`: if the connection's room id
is truthy and the room exists, delete the connection from it, broadcast
`user_left` with the updated size, and mark the room `emptySince` when it
became empty; unconditionally decrement `currentConnections`. -/
def handleDisconnection (st : ServerState) (ws : Conn) (now : Nat) :
    ServerState × List Send :=
  let (rooms1, sends) :=
    if ws.roomId = "" then (st.rooms, ([] : List Send))
    else
      match roomsGet st.rooms ws.roomId with
      | none => (st.rooms, ([] : List Send))
      | some room =>
          let room1 : Room := { room with members := setDelete room.members ws }
          let stMid : ServerState :=
            { st with rooms := roomsSet st.rooms ws.roomId room1 }
          let sends :=
            broadcastToRoom stMid ws.roomId none
              (Msg.user_left ws.clientId room1.members.length now)
          let room2 : Room :=
            if room1.members.length = 0 then { room1 with emptySince := some now } else room1
          (roomsSet st.rooms ws.roomId room2, sends)
  ({ rooms := rooms1,
     stats := { st.stats with currentConnections := st.stats.currentConnections - 1 } },
   sends)

/-- `validateMessage(message)`: in the typed model the parsed object and
string `type` are given, so only the non-emptiness of `type` remains. -/
def validateMessage (m : InMsg) : Bool :=
  decide (0 < m.type.length)

/-- `handlePing(ws, message)`: private `pong` echoing the original
timestamp. -/
def handlePing (ws : Conn) (m : InMsg) (now : Nat) : List Send :=
  [(ws.cid, Msg.pong now m.timestamp)]

/-- `handleSyncStart(ws, message)`: broadcast `sync_started`, excluding
the sender. -/
def handleSyncStart (st : ServerState) (ws : Conn) (m : InMsg) (now : Nat) : List Send :=
  broadcastToRoom st ws.roomId (some ws.cid) (Msg.sync_started ws.clientId m.playerId now)

/-- `handleSyncStop(ws, message)`: broadcast `sync_stopped`, excluding
the sender. -/
def handleSyncStop (st : ServerState) (ws : Conn) (m : InMsg) (now : Nat) : List Send :=
  broadcastToRoom st ws.roomId (some ws.cid) (Msg.sync_stopped ws.clientId now)

/-- `handleControlMessage(ws, message)`: broadcast the verbatim type with
the opaque payload, excluding the sender. -/
def handleControlMessage (st : ServerState) (ws : Conn) (m : InMsg) (now : Nat) : List Send :=
  broadcastToRoom st ws.roomId (some ws.cid) (Msg.control m.type ws.clientId now m.data)

/-- `handlePlayerState(ws, message)`: broadcast `player_state_update`,
excluding the sender. -/
def handlePlayerState (st : ServerState) (ws : Conn) (m : InMsg) (now : Nat) : List Send :=
  broadcastToRoom st ws.roomId (some ws.cid)
    (Msg.player_state_update ws.clientId now m.state m.changes)

/-- `handleSyncRequest(ws, message)`: broadcast `sync_request`, excluding
the sender. -/
def handleSyncRequest (st : ServerState) (ws : Conn) (m : InMsg) (now : Nat) : List Send :=
  broadcastToRoom st ws.roomId (some ws.cid) (Msg.sync_request ws.clientId now)

/-- `handleSyncResponse(ws, message)`: broadcast `sync_response`,
excluding the sender. -/
def handleSyncResponse (st : ServerState) (ws : Conn) (m : InMsg) (now : Nat) : List Send :=
  broadcastToRoom st ws.roomId (some ws.cid) (Msg.sync_response ws.clientId now m.state)

/-- `message.username || clientId` in `handleChatMessage`: a missing or
empty (falsy) username falls back to the client id. -/
def chatUsername (m : InMsg) (clientId : String) : String :=
  match m.username with
  | some u => if u = "" then clientId else u
  | none => clientId

/-- `handleChatMessage(ws, message)`: broadcast `chat_message` with
`excludeWs = null`, so the sender itself is among the recipients. -/
def handleChatMessage (st : ServerState) (ws : Conn) (m : InMsg) (now : Nat) : List Send :=
  broadcastToRoom st ws.roomId none
    (Msg.chat_message ws.clientId now m.message (chatUsername m ws.clientId))

/-- The `switch (message.type)` dispatch inside `handleMessage`. -/
def routeMessage (st : ServerState) (ws : Conn) (m : InMsg) (now : Nat) : List Send :=
  if m.type = "ping" then handlePing ws m now
  else if m.type = "sync_start" then handleSyncStart st ws m now
  else if m.type = "sync_stop" then handleSyncStop st ws m now
  else if m.type = "play" ∨ m.type = "pause" ∨ m.type = "seek" ∨ m.type = "volume_change" then
    handleControlMessage st ws m now
  else if m.type = "player_state" then handlePlayerState st ws m now
  else if m.type = "sync_request" then handleSyncRequest st ws m now
  else if m.type = "sync_response" then handleSyncResponse st ws m now
  else if m.type = "chat_message" then handleChatMessage st ws m now
  else [(ws.cid, Msg.error ("未知的消息类型: " ++ m.type) now)]

/-- `handleMessage(ws, data)`: `parsed = none` models a `JSON.parse`
failure (caught, answered with a private parse error, counter untouched);
otherwise `messagesProcessed` increments once, invalid envelopes get a
private format error, and valid ones go through the dispatch. -/
def handleMessage (st : ServerState) (ws : Conn) (parsed : Option InMsg) (now : Nat) :
    ServerState × List Send :=
  match parsed with
  | none => (st, [(ws.cid, Msg.error "消息解析失败" now)])
  | some m =>
      let st1 : ServerState :=
        { st with stats :=
            { st.stats with messagesProcessed := st.stats.messagesProcessed + 1 } }
      if validateMessage m then (st1, routeMessage st1 ws m now)
      else (st1, [(ws.cid, Msg.error "无效的消息格式" now)])

/-- Outcome of a connection attempt. -/
inductive AcceptResult where
  | rejected (closeCode : Nat) (reason : String)
  | accepted (ws : Conn)
  deriving DecidableEq, Repr

/-- `query.clientId || this.generateClientId()`: a missing or empty
(falsy) query client id is replaced by the generated one. -/
def pickClientId (queryClientId : Option String) (generatedId : String) : String :=
  match queryClientId with
  | some c => if c = "" then generatedId else c
  | none => generatedId

/-- `handleWebSocketConnection(ws, request)`: validate the query
parameters (`!roomId` catches both a missing and an empty room id;
`roomId.length > 50` is also rejected) with close code 1008 before any
registration; otherwise stamp the connection, join the room and bump
`totalConnections` / `currentConnections`. -/
def handleWebSocketConnection (st : ServerState) (queryRoomId : Option String)
    (queryClientId : Option String) (generatedId : String) (freshCid : Nat) (now : Nat) :
    ServerState × AcceptResult × List Send :=
  let clientId := pickClientId queryClientId generatedId
  match queryRoomId with
  | none => (st, AcceptResult.rejected 1008 "房间ID不能为空", [])
  | some roomId =>
      if roomId = "" then (st, AcceptResult.rejected 1008 "房间ID不能为空", [])
      else if roomId.length > 50 then (st, AcceptResult.rejected 1008 "房间ID过长", [])
      else
        let ws : Conn :=
          { cid := freshCid, clientId := clientId, roomId := roomId,
            isAlive := true, readyState := WS_OPEN, joinTime := now }
        let res := joinRoom st ws roomId clientId now
        let st2 : ServerState :=
          { res.1 with stats :=
              { res.1.stats with
                  totalConnections := res.1.stats.totalConnections + 1,
                  currentConnections := res.1.stats.currentConnections + 1 } }
        (st2, AcceptResult.accepted ws, res.2)

/-- The deletion test of `cleanupEmptyRooms`: empty member set, an
`emptySince` mark, and `now - emptySince > 5 * 60 * 1000` milliseconds. -/
def roomExpired (room : Room) (now : Nat) : Bool :=
  room.members.isEmpty &&
    (match room.emptySince with
     | some t => decide ((now : Int) - (t : Int) > 5 * 60 * 1000)
     | none => false)

/-- `cleanupEmptyRooms()`: delete every expired room from the registry. -/
def cleanupEmptyRooms (st : ServerState) (now : Nat) : ServerState :=
  { st with rooms := st.rooms.filter (fun p => !roomExpired p.2 now) }

/-- `handleRoomsRequest`: the `GET /rooms` body — for every registry room,
its id, `clientCount` and `clientIds`. -/
def handleRoomsRequest (st : ServerState) : List (String × Nat × List String) :=
  st.rooms.map (fun p => (p.1, p.2.members.length, p.2.members.map Conn.clientId))

/-- The `ws.on('pong')` handler: set the liveness flag. -/
def onPong (ws : Conn) : Conn :=
  { ws with isAlive := true }

/-- `ws.isAlive = false` before `ws.ping()` in the heartbeat sweep. -/
def clearAlive (ws : Conn) : Conn :=
  { ws with isAlive := false }

/-- One heartbeat sweep, the survivors: every client whose flag was set
keeps its connection, with the flag cleared and a probe sent. -/
def sweepSurvivors (clients : List Conn) : List Conn :=
  (clients.filter (fun ws => ws.isAlive)).map clearAlive

/-- One heartbeat sweep, the casualties: every client whose flag is
`false` is terminated (`ws.terminate()`). -/
def sweepTerminated (clients : List Conn) : List Conn :=
  clients.filter (fun ws => !ws.isAlive)

/-! ### Registry lemmas -/

theorem roomsGet_roomsSet_self (rooms : List (String × Room)) (k : String) (r : Room) :
    roomsGet (roomsSet rooms k r) k = some r := by
  induction rooms with
  | nil => simp [roomsSet, roomsGet]
  | cons hd tl ih =>
      by_cases hk : hd.1 = k
      · simp [roomsSet, roomsGet, hk]
      · simpa [roomsSet, roomsGet, hk] using ih

theorem mem_of_roomsGet {rooms : List (String × Room)} {k : String} {r : Room}
    (h : roomsGet rooms k = some r) : (k, r) ∈ rooms := by
  induction rooms with
  | nil => simp [roomsGet] at h
  | cons hd tl ih =>
      obtain ⟨k1, v1⟩ := hd
      by_cases hk : k1 = k
      · simp only [roomsGet, if_pos hk, Option.some.injEq] at h
        subst hk
        subst h
        exact List.mem_cons_self _ _
      · simp only [roomsGet, if_neg hk] at h
        exact List.mem_cons_of_mem _ (ih h)

theorem roomsGet_filter_keep {rooms : List (String × Room)} {k : String} {r : Room}
    {p : String × Room → Bool}
    (h : roomsGet rooms k = some r) (hp : p (k, r) = true) :
    roomsGet (rooms.filter p) k = some r := by
  induction rooms with
  | nil => simp [roomsGet] at h
  | cons hd tl ih =>
      obtain ⟨k1, v1⟩ := hd
      by_cases hk : k1 = k
      · simp only [roomsGet, if_pos hk, Option.some.injEq] at h
        subst hk
        subst h
        simp [List.filter_cons, hp, roomsGet]
      · simp only [roomsGet, if_neg hk] at h
        by_cases hphd : p (k1, v1) = true
        · simp only [List.filter_cons, hphd, if_pos, roomsGet, if_neg hk]
          exact ih h
        · have hstep : List.filter p ((k1, v1) :: tl) = List.filter p tl := by
            simp [List.filter_cons, hphd]
          rw [hstep]
          exact ih h

theorem roomsGet_none_of_not_mem {rooms : List (String × Room)} {k : String}
    (h : k ∉ rooms.map Prod.fst) : roomsGet rooms k = none := by
  induction rooms with
  | nil => simp [roomsGet]
  | cons hd tl ih =>
      simp only [List.map_cons, List.mem_cons] at h
      push_neg at h
      have hne : hd.1 ≠ k := fun he => h.1 he.symm
      simp [roomsGet, hne, ih h.2]

theorem roomsGet_filter_drop {rooms : List (String × Room)} {k : String} {r : Room}
    {p : String × Room → Bool}
    (hkeys : (rooms.map Prod.fst).Nodup)
    (h : roomsGet rooms k = some r) (hp : p (k, r) = false) :
    roomsGet (rooms.filter p) k = none := by
  induction rooms with
  | nil => simp [roomsGet] at h
  | cons hd tl ih =>
      obtain ⟨k1, v1⟩ := hd
      simp only [List.map_cons, List.nodup_cons] at hkeys
      by_cases hk : k1 = k
      · simp only [roomsGet, if_pos hk, Option.some.injEq] at h
        subst hk
        subst h
        have hnotin : k1 ∉ (tl.filter p).map Prod.fst := by
          intro hmem
          exact hkeys.1 ((List.map_subset Prod.fst (List.filter_subset' tl)) hmem)
        have hstep : List.filter p ((k1, v1) :: tl) = List.filter p tl := by
          simp [List.filter_cons, hp]
        rw [hstep]
        exact roomsGet_none_of_not_mem hnotin
      · simp only [roomsGet, if_neg hk] at h
        by_cases hphd : p (k1, v1) = true
        · simp [List.filter_cons, hphd, roomsGet, hk]
          exact ih hkeys.2 h
        · have hstep : List.filter p ((k1, v1) :: tl) = List.filter p tl := by
            simp [List.filter_cons, hphd]
          rw [hstep]
          exact ih hkeys.2 h

/-! ### Broadcast lemmas -/

theorem broadcast_excludes (st : ServerState) (rid : String) (e : Nat) (msg : Msg) :
    ∀ s ∈ broadcastToRoom st rid (some e) msg, s.1 ≠ e := by
  intro s hs
  unfold broadcastToRoom at hs
  cases hget : roomsGet st.rooms rid with
  | none => simp [hget] at hs
  | some room =>
      rw [hget] at hs
      obtain ⟨c, hc, rfl⟩ := List.mem_map.mp hs
      have := (List.mem_filter.mp hc).2
      simp only [excludeCheck, Bool.and_eq_true, bne_iff_ne] at this
      exact this.1

theorem broadcast_mem {st : ServerState} {rid : String} {room : Room}
    (ex : Option Nat) (msg : Msg) {c : Conn}
    (hget : roomsGet st.rooms rid = some room)
    (hc : c ∈ room.members)
    (hex : excludeCheck ex c = true)
    (hopen : c.readyState = WS_OPEN) :
    (c.cid, msg) ∈ broadcastToRoom st rid ex msg := by
  unfold broadcastToRoom
  rw [hget]
  exact List.mem_map.mpr ⟨c, List.mem_filter.mpr ⟨hc, by simp [hex, hopen]⟩, rfl⟩

/-! ### Member-set lemmas -/

theorem length_filter_ne_of_nodup {l : List Conn} {s : Conn}
    (hnd : (l.map Conn.cid).Nodup) (hs : s ∈ l) :
    (l.filter (fun c => c.cid != s.cid)).length = l.length - 1 := by
  induction l with
  | nil => simp at hs
  | cons hd tl ih =>
      simp only [List.map_cons, List.nodup_cons] at hnd
      by_cases hcid : hd.cid = s.cid
      · have htl : tl.filter (fun c => c.cid != s.cid) = tl := by
          rw [List.filter_eq_self]
          intro c hc
          simp only [bne_iff_ne, ne_eq]
          intro he
          exact hnd.1 (by rw [hcid, ← he]; exact List.mem_map_of_mem Conn.cid hc)
        simp [List.filter_cons, hcid, htl]
      · have hstl : s ∈ tl := by
          rcases List.mem_cons.mp hs with h | h
          · exact absurd (congrArg Conn.cid h.symm) hcid
          · exact h
        have hne : (hd.cid != s.cid) = true := bne_iff_ne.mpr hcid
        have hlen : 1 ≤ tl.length := List.length_pos.mpr (List.ne_nil_of_mem hstl)
        simp only [List.filter_cons, hne, if_pos, List.length_cons]
        rw [ih hnd.2 hstl]
        omega

theorem filter_cid_eq_of_nodup {l : List Conn} {c : Conn}
    (hnd : (l.map Conn.cid).Nodup) (hc : c ∈ l) :
    l.filter (fun d => d.cid == c.cid) = [c] := by
  induction l with
  | nil => simp at hc
  | cons hd tl ih =>
      simp only [List.map_cons, List.nodup_cons] at hnd
      by_cases hcid : hd.cid = c.cid
      · have hchd : c = hd := by
          rcases List.mem_cons.mp hc with h | h
          · exact h
          · exact absurd (show hd.cid ∈ List.map Conn.cid tl by
              rw [hcid]
              exact List.mem_map_of_mem Conn.cid h) hnd.1
        have htl : tl.filter (fun d => d.cid == c.cid) = [] := by
          rw [List.filter_eq_nil_iff]
          intro d hd'
          simp only [beq_eq_false_iff_ne, ne_eq, Bool.not_eq_true]
          intro he
          exact hnd.1 (by
            rw [hcid, ← he]
            exact List.mem_map_of_mem Conn.cid hd')
        simp [List.filter_cons, hcid, htl, hchd]
      · have hctl : c ∈ tl := by
          rcases List.mem_cons.mp hc with h | h
          · exact absurd (congrArg Conn.cid h).symm hcid
          · exact h
        have hne : (hd.cid == c.cid) = false := beq_eq_false_iff_ne.mpr hcid
        simp [List.filter_cons, hne, ih hnd.2 hctl]

/-! ### Concrete states used by witnesses and counterexamples -/

/-- Baseline counters for the example states. -/
def statsEx : Stats :=
  { totalConnections := 2, currentConnections := 2, roomsCreated := 1, messagesProcessed := 0 }

/-- An open connection `A` in room `r`. -/
def connA : Conn :=
  { cid := 1, clientId := "A", roomId := "r", isAlive := true, readyState := 1, joinTime := 0 }

/-- An open connection `B` in room `r`. -/
def connB : Conn :=
  { cid := 2, clientId := "B", roomId := "r", isAlive := true, readyState := 1, joinTime := 0 }

/-- An open connection `C` in room `r`. -/
def connC : Conn :=
  { cid := 3, clientId := "C", roomId := "r", isAlive := true, readyState := 1, joinTime := 0 }

/-- A connection `D` in room `r` whose transport is no longer open. -/
def connD : Conn :=
  { cid := 4, clientId := "D", roomId := "r", isAlive := true, readyState := 3, joinTime := 0 }

/-- A connection `E` in room `r` whose transport is no longer open. -/
def connE : Conn :=
  { cid := 5, clientId := "E", roomId := "r", isAlive := true, readyState := 3, joinTime := 0 }

/-- Room `r` holding only `connA`. -/
def roomA : Room := { members := [connA], createdAt := 0, emptySince := none }

/-- Room `r` holding `connA` and `connB`, both open. -/
def roomAB : Room := { members := [connA, connB], createdAt := 0, emptySince := none }

/-- Room `r` holding two members whose transports are closed. -/
def roomTwoClosed : Room := { members := [connD, connE], createdAt := 0, emptySince := none }

/-- A server with no rooms and zeroed counters. -/
def stEmpty : ServerState :=
  { rooms := [],
    stats := { totalConnections := 0, currentConnections := 0, roomsCreated := 0,
               messagesProcessed := 0 } }

/-- A server whose room `r` holds only `connA`. -/
def stRoomA : ServerState := { rooms := [("r", roomA)], stats := statsEx }

/-- A server whose room `r` holds `connA` and `connB`. -/
def stRoomAB : ServerState := { rooms := [("r", roomAB)], stats := statsEx }

/-- A server whose room `r` is empty and pending reclamation since time 50. -/
def stPending : ServerState :=
  { rooms := [("r", { members := [], createdAt := 0, emptySince := some 50 })],
    stats := statsEx }

/-- A server whose room `r` holds only closed transports. -/
def stTwoClosed : ServerState := { rooms := [("r", roomTwoClosed)], stats := statsEx }

/-- The state after client `A` connects to `movie1` on a fresh server. -/
def stMovieA : ServerState :=
  (handleWebSocketConnection stEmpty (some "movie1") (some "A") "g1" 1 10).1

/-- The deliveries issued while client `B` connects to `movie1` after `A`. -/
def sendsMovieB : List Send :=
  (handleWebSocketConnection stMovieA (some "movie1") (some "B") "g2" 2 20).2.2

/-- An inbound `ping` carrying timestamp 42. -/
def msgPing : InMsg :=
  { type := "ping", timestamp := some 42, playerId := none, data := none, state := none,
    changes := none, message := none, username := none }

/-- An inbound `play` control message. -/
def msgPlay : InMsg :=
  { type := "play", timestamp := none, playerId := none, data := some "d", state := none,
    changes := none, message := none, username := none }

/-- An inbound `chat_message`. -/
def msgChat : InMsg :=
  { type := "chat_message", timestamp := none, playerId := none, data := none, state := none,
    changes := none, message := some "hi", username := none }

/-- A 51-character room id. -/
def longRoomId : String :=
  "abcdefghijabcdefghijabcdefghijabcdefghijabcdefghijX"

/-! ### Claim C1 -/

/-- Claim C1, counterexample: with room `r` still registered and holding
`connA`, a further `handleDisconnection` for `connB` — which is no longer
a member of the room — broadcasts another `user_left` to `connA` and
decrements the current-connections gauge, so the repeated leave is not a
no-op as the claim states. -/
theorem c1_counterexample :
    (handleDisconnection stRoomA connB 100).2 = [(1, Msg.user_left "B" 1 100)] ∧
    (handleDisconnection stRoomA connB 100).1.stats.currentConnections
      = stRoomA.stats.currentConnections - 1 ∧
    ¬ ((handleDisconnection stRoomA connB 100).2 = [] ∧
       (handleDisconnection stRoomA connB 100).1.stats.currentConnections
         = stRoomA.stats.currentConnections) := by
  decide

/-- Claim C1, amended: a leave never errors; when the connection's room is
absent from the registry, the registry is unchanged and no `user_left` is
sent, but the current-connections gauge is decremented unconditionally
(and, per the counterexample, a repeated leave while the room is still
registered rebroadcasts `user_left`). -/
theorem c1_leave_absent_room (st : ServerState) (ws : Conn) (now : Nat)
    (h : roomsGet st.rooms ws.roomId = none) :
    (handleDisconnection st ws now).1.rooms = st.rooms ∧
    (handleDisconnection st ws now).2 = [] ∧
    (handleDisconnection st ws now).1.stats.currentConnections
      = st.stats.currentConnections - 1 := by
  by_cases hid : ws.roomId = "" <;> simp [handleDisconnection, h, hid]

/-- Witness for `c1_leave_absent_room` at a server with no rooms. -/
theorem c1_leave_absent_room_witness :
    (handleDisconnection stEmpty connB 5).1.rooms = stEmpty.rooms ∧
    (handleDisconnection stEmpty connB 5).2 = [] ∧
    (handleDisconnection stEmpty connB 5).1.stats.currentConnections
      = stEmpty.stats.currentConnections - 1 :=
  c1_leave_absent_room stEmpty connB 5 (by decide)

/-! ### Claim C2 -/

/-- Claim C2, counterexample: joining the pending room `r` (empty,
`emptySince = 50`) leaves the empty-since marker set at 50; the room does
not end up without a timestamp as the claim states. -/
theorem c2_counterexample :
    (roomsGet (joinRoom stPending connC "r" "C" 100).1.rooms "r").map Room.emptySince
      = some (some 50) ∧
    ¬ (roomsGet (joinRoom stPending connC "r" "C" 100).1.rooms "r").map Room.emptySince
      = some none := by
  decide

/-- Claim C2, amended: a join into a pending room keeps the stale
empty-since marker (and the creation timestamp), but the room is now
non-empty, so any subsequent reclamation sweep leaves it in the
registry. -/
theorem c2_join_pending_room (st : ServerState) (ws : Conn) (roomId clientId : String)
    (room : Room) (now now2 : Nat)
    (h : roomsGet st.rooms roomId = some room) (hm : room.members = []) :
    roomsGet (joinRoom st ws roomId clientId now).1.rooms roomId
      = some { members := [ws], createdAt := room.createdAt,
               emptySince := room.emptySince } ∧
    roomsGet (cleanupEmptyRooms (joinRoom st ws roomId clientId now).1 now2).rooms roomId
      = some { members := [ws], createdAt := room.createdAt,
               emptySince := room.emptySince } := by
  have hadd : setAdd room.members ws = [ws] := by
    simp [setAdd, hm]
  have hroom2 : roomsGet (joinRoom st ws roomId clientId now).1.rooms roomId
      = some { members := [ws], createdAt := room.createdAt,
               emptySince := room.emptySince } := by
    simp only [joinRoom, h, hadd]
    exact roomsGet_roomsSet_self _ _ _
  exact ⟨hroom2, roomsGet_filter_keep hroom2 (by simp [roomExpired])⟩

/-- Witness for `c2_join_pending_room` at the pending room `r`. -/
theorem c2_join_pending_room_witness :
    roomsGet (joinRoom stPending connC "r" "C" 100).1.rooms "r"
      = some { members := [connC], createdAt := 0, emptySince := some 50 } ∧
    roomsGet (cleanupEmptyRooms (joinRoom stPending connC "r" "C" 100).1 400001).rooms "r"
      = some { members := [connC], createdAt := 0, emptySince := some 50 } :=
  c2_join_pending_room stPending connC "r" "C"
    { members := [], createdAt := 0, emptySince := some 50 } 100 400001
    (by decide) (by decide)

/-! ### Claim C3 -/

/-- Claim C3, counterexample: in the concrete scenario (A then B joins
`movie1`), B's private messages arrive as `connected` followed by
`room_info`, not `room_info` followed by `connected`; A does receive
`user_joined` with B's id and room size 2. -/
theorem c3_counterexample :
    sendsMovieB.filterMap (fun s => if s.1 = 2 then some s.2 else none)
      = [Msg.connected "B" "movie1" 2 20, Msg.room_info ["A"] 2 20] ∧
    (1, Msg.user_joined "B" 2 20) ∈ sendsMovieB ∧
    sendsMovieB.filterMap (fun s => if s.1 = 2 then some s.2 else none)
      ≠ [Msg.room_info ["A"] 2 20, Msg.connected "B" "movie1" 2 20] := by
  decide

/-- Claim C3, amended: when `b` joins a room whose only member is the open
connection `a`, the deliveries are, in order: `b`'s own `connected` ack,
the `user_joined` broadcast to `a` with `b`'s identifier and room size 2,
and then `b`'s `room_info` snapshot listing `a` with room size 2. -/
theorem c3_join_message_order (st : ServerState) (a b : Conn) (rid : String)
    (room : Room) (now : Nat)
    (h : roomsGet st.rooms rid = some room) (hm : room.members = [a])
    (hopen : a.readyState = WS_OPEN) (hne : a.cid ≠ b.cid) :
    (joinRoom st b rid b.clientId now).2 =
      [(b.cid, Msg.connected b.clientId rid 2 now),
       (a.cid, Msg.user_joined b.clientId 2 now),
       (b.cid, Msg.room_info [a.clientId] 2 now)] := by
  have hanyf : ([a].any (fun c => c.cid == b.cid)) = false := by
    simp [beq_eq_false_iff_ne.mpr hne]
  have hbne : (a.cid != b.cid) = true := bne_iff_ne.mpr hne
  simp [joinRoom, h, hm, setAdd, hanyf, broadcastToRoom, roomsGet_roomsSet_self,
    excludeCheck, List.filter_cons, hbne, hopen, WS_OPEN]

/-- Witness for `c3_join_message_order`: `connB` joins room `r` holding
only `connA`. -/
theorem c3_join_message_order_witness :
    (joinRoom stRoomA connB "r" connB.clientId 20).2 =
      [(connB.cid, Msg.connected connB.clientId "r" 2 20),
       (connA.cid, Msg.user_joined connB.clientId 2 20),
       (connB.cid, Msg.room_info [connA.clientId] 2 20)] :=
  c3_join_message_order stRoomA connA connB "r" roomA 20
    (by decide) (by decide) (by decide) (by decide)

/-! ### Claim C7 -/

/-- Claim C7: a connection attempt whose room id is missing, empty, or
longer than 50 characters is rejected with close code 1008 before any
registration: the server state (registry and all counters) is unchanged
and no message is sent. -/
theorem c7_reject_invalid_room_id (st : ServerState) (q qc : Option String)
    (g : String) (cid now : Nat)
    (h : q = none ∨ q = some "" ∨ ∃ rid, q = some rid ∧ 50 < rid.length) :
    (handleWebSocketConnection st q qc g cid now).1 = st ∧
    (handleWebSocketConnection st q qc g cid now).2.2 = [] ∧
    ∃ reason, (handleWebSocketConnection st q qc g cid now).2.1
      = AcceptResult.rejected 1008 reason := by
  rcases h with rfl | rfl | ⟨rid, rfl, hlen⟩
  · exact ⟨rfl, rfl, "房间ID不能为空", rfl⟩
  · refine ⟨?_, ?_, "房间ID不能为空", ?_⟩ <;> simp [handleWebSocketConnection]
  · have hne : rid ≠ "" := by
      intro he
      rw [he] at hlen
      exact absurd hlen (by decide)
    refine ⟨?_, ?_, "房间ID过长", ?_⟩ <;> simp [handleWebSocketConnection, hne, hlen]

/-- Witness for `c7_reject_invalid_room_id` at a 51-character room id. -/
theorem c7_reject_invalid_room_id_witness :
    (handleWebSocketConnection stEmpty (some longRoomId) none "g" 9 5).1 = stEmpty ∧
    (handleWebSocketConnection stEmpty (some longRoomId) none "g" 9 5).2.2 = [] ∧
    ∃ reason, (handleWebSocketConnection stEmpty (some longRoomId) none "g" 9 5).2.1
      = AcceptResult.rejected 1008 reason :=
  c7_reject_invalid_room_id stEmpty (some longRoomId) none "g" 9 5
    (Or.inr (Or.inr ⟨longRoomId, rfl, by decide⟩))

/-! ### Claim C9 -/

/-- Claim C9: an inbound `ping` with timestamp `T` produces exactly one
delivery, a private `pong` to the sender echoing `T` as `original` and
stamped with the server time; nothing is broadcast, and the only state
change is the processed-message counter. -/
theorem c9_ping_private_pong (st : ServerState) (ws : Conn) (m : InMsg) (now : Nat)
    (h : m.type = "ping") :
    (handleMessage st ws (some m) now).2 = [(ws.cid, Msg.pong now m.timestamp)] ∧
    (handleMessage st ws (some m) now).1 =
      { st with stats :=
          { st.stats with messagesProcessed := st.stats.messagesProcessed + 1 } } := by
  have hv : validateMessage m = true := by
    rw [validateMessage, h]
    decide
  simp [handleMessage, hv, routeMessage, h, handlePing]

/-- Witness for `c9_ping_private_pong`: `connA` pings in `stRoomA`. -/
theorem c9_ping_private_pong_witness :
    (handleMessage stRoomA connA (some msgPing) 7).2
      = [(connA.cid, Msg.pong 7 msgPing.timestamp)] ∧
    (handleMessage stRoomA connA (some msgPing) 7).1 =
      { stRoomA with stats :=
          { stRoomA.stats with
              messagesProcessed := stRoomA.stats.messagesProcessed + 1 } } :=
  c9_ping_private_pong stRoomA connA msgPing 7 (by decide)

/-! ### Claim C4 -/

/-- Claim C4: among the handled inbound types, `chat_message` is the only
one whose broadcast reaches the sending connection itself: every other
broadcasting type excludes the sender from its deliveries, `chat_message`
delivers to the sender (when its transport is open), and `ping` is
answered privately to the sender only. -/
theorem c4_chat_only_includes_sender (st : ServerState) (ws : Conn) (m : InMsg)
    (now : Nat) (room : Room)
    (hroom : roomsGet st.rooms ws.roomId = some room) :
    ((m.type = "sync_start" ∨ m.type = "sync_stop" ∨ m.type = "play" ∨
      m.type = "pause" ∨ m.type = "seek" ∨ m.type = "volume_change" ∨
      m.type = "player_state" ∨ m.type = "sync_request" ∨ m.type = "sync_response") →
      ∀ s ∈ (handleMessage st ws (some m) now).2, s.1 ≠ ws.cid) ∧
    (m.type = "chat_message" → ws ∈ room.members → ws.readyState = WS_OPEN →
      (ws.cid, Msg.chat_message ws.clientId now m.message (chatUsername m ws.clientId))
        ∈ (handleMessage st ws (some m) now).2) ∧
    (m.type = "ping" →
      (handleMessage st ws (some m) now).2 = [(ws.cid, Msg.pong now m.timestamp)]) := by
  refine ⟨?_, ?_, ?_⟩
  · intro hty
    have hv : validateMessage m = true := by
      rcases hty with h1|h1|h1|h1|h1|h1|h1|h1|h1 <;> (rw [validateMessage, h1]; decide)
    intro s hs
    rcases hty with h1|h1|h1|h1|h1|h1|h1|h1|h1 <;>
      (simp only [handleMessage, hv, if_true, routeMessage, h1, handleSyncStart,
        handleSyncStop, handleControlMessage, handlePlayerState, handleSyncRequest,
        handleSyncResponse, String.reduceEq, ite_false, ite_true, reduceIte] at hs
       exact broadcast_excludes _ _ _ _ s hs)
  · intro h1 hmem hopen
    have hv : validateMessage m = true := by
      rw [validateMessage, h1]
      decide
    simp only [handleMessage, hv, if_true, routeMessage, h1, String.reduceEq,
      ite_false, ite_true, reduceIte, handleChatMessage]
    exact broadcast_mem none _ hroom hmem rfl hopen
  · intro h1
    have hv : validateMessage m = true := by
      rw [validateMessage, h1]
      decide
    simp [handleMessage, hv, routeMessage, h1, handlePing]

/-- Witness for `c4_chat_only_includes_sender`: a `play` broadcast from
`connA` excludes `connA`, `connA`'s own `chat_message` reaches `connA`,
and `connA`'s `ping` is answered privately. -/
theorem c4_chat_only_includes_sender_witness :
    (∀ s ∈ (handleMessage stRoomA connA (some msgPlay) 7).2, s.1 ≠ connA.cid) ∧
    ((connA.cid, Msg.chat_message connA.clientId 7 msgChat.message
        (chatUsername msgChat connA.clientId))
      ∈ (handleMessage stRoomA connA (some msgChat) 7).2) ∧
    (handleMessage stRoomA connA (some msgPing) 7).2
      = [(connA.cid, Msg.pong 7 msgPing.timestamp)] :=
  ⟨(c4_chat_only_includes_sender stRoomA connA msgPlay 7 roomA (by decide)).1
      (Or.inr (Or.inr (Or.inl rfl))),
   (c4_chat_only_includes_sender stRoomA connA msgChat 7 roomA (by decide)).2.1
      rfl (by decide) (by decide),
   (c4_chat_only_includes_sender stRoomA connA msgPing 7 roomA (by decide)).2.2 rfl⟩

/-! ### Claim C5 -/

/-- Claim C5: broadcasting to a room of `N` distinct members that
includes the sender delivers, when every transport is open, to exactly
`N - 1` connections (0 when the sender is alone); and independently of
other members' transports, every open member other than the sender does
receive the message. -/
theorem c5_broadcast_delivery_count (st : ServerState) (rid : String) (room : Room)
    (sender : Conn) (msg : Msg)
    (h : roomsGet st.rooms rid = some room)
    (hnd : (room.members.map Conn.cid).Nodup)
    (hs : sender ∈ room.members) :
    ((∀ c ∈ room.members, c.readyState = WS_OPEN) →
      (broadcastToRoom st rid (some sender.cid) msg).length = room.members.length - 1) ∧
    (∀ c ∈ room.members, c.cid ≠ sender.cid → c.readyState = WS_OPEN →
      (c.cid, msg) ∈ broadcastToRoom st rid (some sender.cid) msg) := by
  constructor
  · intro hall
    unfold broadcastToRoom
    rw [h, List.length_map]
    have hcong : room.members.filter
        (fun c => excludeCheck (some sender.cid) c && c.readyState == WS_OPEN)
        = room.members.filter (fun c => c.cid != sender.cid) :=
      List.filter_congr (fun c hc => by simp [excludeCheck, hall c hc])
    rw [hcong]
    exact length_filter_ne_of_nodup hnd hs
  · intro c hc hne hopen
    exact broadcast_mem _ _ h hc (by simp [excludeCheck, bne_iff_ne.mpr hne]) hopen

/-- Witness for `c5_broadcast_delivery_count`: in room `r` with the two
open members `connA` and `connB`, a broadcast excluding `connA` reaches
exactly one connection, and `connB` is among the recipients. -/
theorem c5_broadcast_delivery_count_witness :
    (broadcastToRoom stRoomAB "r" (some connA.cid) (Msg.sync_request "A" 7)).length
      = roomAB.members.length - 1 ∧
    (connB.cid, Msg.sync_request "A" 7)
      ∈ broadcastToRoom stRoomAB "r" (some connA.cid) (Msg.sync_request "A" 7) :=
  ⟨(c5_broadcast_delivery_count stRoomAB "r" roomAB connA (Msg.sync_request "A" 7)
      (by decide) (by decide) (by decide)).1 (by decide),
   (c5_broadcast_delivery_count stRoomAB "r" roomAB connA (Msg.sync_request "A" 7)
      (by decide) (by decide) (by decide)).2 connB (by decide) (by decide) (by decide)⟩

/-! ### Claim C6 -/

/-- Claim C6: the reclamation sweep removes a registered room exactly when
its member set is empty and its empty-since timestamp is more than the
5-minute grace period old (`roomExpired`); any other registered room
survives the sweep and stays visible in the `GET /rooms` listing. -/
theorem c6_reclamation_iff (st : ServerState) (now : Nat) (rid : String) (room : Room)
    (hkeys : (st.rooms.map Prod.fst).Nodup)
    (h : roomsGet st.rooms rid = some room) :
    (roomExpired room now = true →
      roomsGet (cleanupEmptyRooms st now).rooms rid = none) ∧
    (roomExpired room now = false →
      roomsGet (cleanupEmptyRooms st now).rooms rid = some room) ∧
    (roomExpired room now = true ↔
      room.members = [] ∧
        ∃ t, room.emptySince = some t ∧ 5 * 60 * 1000 < (now : Int) - t) ∧
    (roomExpired room now = false →
      (rid, room.members.length, room.members.map Conn.clientId)
        ∈ handleRoomsRequest (cleanupEmptyRooms st now)) := by
  refine ⟨?_, ?_, ?_, ?_⟩
  · intro he
    exact roomsGet_filter_drop hkeys h (by simp [he])
  · intro he
    exact roomsGet_filter_keep h (by simp [he])
  · constructor
    · intro he
      simp only [roomExpired, Bool.and_eq_true, List.isEmpty_iff] at he
      refine ⟨he.1, ?_⟩
      have h2 := he.2
      cases hes : room.emptySince with
      | none => rw [hes] at h2; simp at h2
      | some t =>
          rw [hes] at h2
          simp only [decide_eq_true_eq] at h2
          exact ⟨t, rfl, h2⟩
    · rintro ⟨h1, t, h2, h3⟩
      simp only [roomExpired, h1, h2, List.isEmpty_nil, Bool.true_and,
        decide_eq_true_eq]
      omega
  · intro he
    have hkeep : roomsGet (cleanupEmptyRooms st now).rooms rid = some room :=
      roomsGet_filter_keep h (by simp [he])
    exact List.mem_map.mpr ⟨(rid, room), mem_of_roomsGet hkeep, rfl⟩

/-- Room emptied at time 0, expired by time 500000. -/
def roomOld : Room := { members := [], createdAt := 0, emptySince := some 0 }

/-- Room emptied at time 400000, still inside the grace period at
500000. -/
def roomNew : Room := { members := [], createdAt := 0, emptySince := some 400000 }

/-- A registry holding an expired empty room, a recently emptied room and
a busy room. -/
def stSweep : ServerState :=
  { rooms := [("old", roomOld), ("new", roomNew), ("busy", roomA)], stats := statsEx }

/-- Witness for `c6_reclamation_iff`: sweeping `stSweep` at time 500000
deletes `old`, keeps `new`, and `new` stays visible in `GET /rooms`. -/
theorem c6_reclamation_iff_witness :
    roomsGet (cleanupEmptyRooms stSweep 500000).rooms "old" = none ∧
    roomsGet (cleanupEmptyRooms stSweep 500000).rooms "new" = some roomNew ∧
    ("new", roomNew.members.length, roomNew.members.map Conn.clientId)
      ∈ handleRoomsRequest (cleanupEmptyRooms stSweep 500000) :=
  ⟨(c6_reclamation_iff stSweep 500000 "old" roomOld (by decide) (by decide)).1
      (by decide),
   (c6_reclamation_iff stSweep 500000 "new" roomNew (by decide) (by decide)).2.1
      (by decide),
   (c6_reclamation_iff stSweep 500000 "new" roomNew (by decide) (by decide)).2.2.2
      (by decide)⟩

/-! ### Claim C8 -/

/-- Claim C8: a connection accepted with its liveness flag true that never
answers a probe survives the first heartbeat sweep (which clears its flag
and probes it), is terminated by the second sweep, and routing that
termination through `handleDisconnection` emits the `user_left` broadcast
once: the deliveries are exactly one `user_left` (with the updated room
size) per remaining open room member, each such member receiving it
exactly once. -/
theorem c8_heartbeat_two_sweep_termination (ws : Conn) (clients : List Conn)
    (st : ServerState) (room : Room) (now : Nat)
    (hAlive : ws.isAlive = true)
    (hMem : ws ∈ clients)
    (hid : ws.roomId ≠ "")
    (hRoom : roomsGet st.rooms ws.roomId = some room)
    (hnd : (room.members.map Conn.cid).Nodup) :
    ws ∉ sweepTerminated clients ∧
    clearAlive ws ∈ sweepSurvivors clients ∧
    clearAlive ws ∈ sweepTerminated (sweepSurvivors clients) ∧
    (handleDisconnection st (clearAlive ws) now).2 =
      ((room.members.filter (fun c => c.cid != ws.cid)).filter
        (fun c => c.readyState == WS_OPEN)).map
        (fun c => (c.cid, Msg.user_left ws.clientId
            (room.members.filter (fun c => c.cid != ws.cid)).length now)) ∧
    (∀ c ∈ room.members, c.cid ≠ ws.cid → c.readyState = WS_OPEN →
      ((handleDisconnection st (clearAlive ws) now).2.filter
        (fun s => s.1 == c.cid)).length = 1) := by
  have hsurv : clearAlive ws ∈ sweepSurvivors clients :=
    List.mem_map.mpr ⟨ws, List.mem_filter.mpr ⟨hMem, hAlive⟩, rfl⟩
  have hsends : (handleDisconnection st (clearAlive ws) now).2 =
      ((room.members.filter (fun c => c.cid != ws.cid)).filter
        (fun c => c.readyState == WS_OPEN)).map
        (fun c => (c.cid, Msg.user_left ws.clientId
            (room.members.filter (fun c => c.cid != ws.cid)).length now)) := by
    have hcong : ∀ l : List Conn,
        l.filter (fun c => excludeCheck none c && c.readyState == WS_OPEN)
          = l.filter (fun c => c.readyState == WS_OPEN) := by
      intro l
      exact List.filter_congr (fun c _ => by simp [excludeCheck])
    have hid2 : ¬ (clearAlive ws).roomId = "" := hid
    have hR2 : roomsGet st.rooms (clearAlive ws).roomId = some room := hRoom
    simp only [handleDisconnection, if_neg hid2, hR2, broadcastToRoom,
      roomsGet_roomsSet_self, setDelete, hcong]
    rfl
  refine ⟨?_, hsurv, ?_, hsends, ?_⟩
  · intro hmem
    have := (List.mem_filter.mp hmem).2
    rw [hAlive] at this
    exact absurd this (by decide)
  · exact List.mem_filter.mpr ⟨hsurv, rfl⟩
  · intro c hc hne hopen
    rw [hsends, List.filter_map]
    rw [List.length_map]
    have hcomp : ((fun s : Send => s.1 == c.cid) ∘
        (fun d : Conn => (d.cid, Msg.user_left ws.clientId
            (room.members.filter (fun e => e.cid != ws.cid)).length now)))
        = fun d : Conn => d.cid == c.cid := rfl
    rw [hcomp]
    have hsub : ((room.members.filter (fun d => d.cid != ws.cid)).filter
        (fun d => d.readyState == WS_OPEN)).Sublist room.members :=
      (List.filter_sublist _).trans (List.filter_sublist _)
    have hnd2 : (((room.members.filter (fun d => d.cid != ws.cid)).filter
        (fun d => d.readyState == WS_OPEN)).map Conn.cid).Nodup :=
      List.Nodup.sublist (List.Sublist.map Conn.cid hsub) hnd
    have hcmem : c ∈ (room.members.filter (fun d => d.cid != ws.cid)).filter
        (fun d => d.readyState == WS_OPEN) :=
      List.mem_filter.mpr
        ⟨List.mem_filter.mpr ⟨hc, bne_iff_ne.mpr hne⟩, by simp [hopen]⟩
    rw [filter_cid_eq_of_nodup hnd2 hcmem]
    rfl

/-- Witness for `c8_heartbeat_two_sweep_termination`: `connB`, alive and
alone in the client list, with room `r` holding `connA` and `connB`. -/
theorem c8_heartbeat_two_sweep_termination_witness :
    connB ∉ sweepTerminated [connB] ∧
    clearAlive connB ∈ sweepSurvivors [connB] ∧
    clearAlive connB ∈ sweepTerminated (sweepSurvivors [connB]) ∧
    (handleDisconnection stRoomAB (clearAlive connB) 100).2 =
      ((roomAB.members.filter (fun c => c.cid != connB.cid)).filter
        (fun c => c.readyState == WS_OPEN)).map
        (fun c => (c.cid, Msg.user_left connB.clientId
            (roomAB.members.filter (fun c => c.cid != connB.cid)).length 100)) ∧
    (∀ c ∈ roomAB.members, c.cid ≠ connB.cid → c.readyState = WS_OPEN →
      ((handleDisconnection stRoomAB (clearAlive connB) 100).2.filter
        (fun s => s.1 == c.cid)).length = 1) :=
  c8_heartbeat_two_sweep_termination connB [connB] stRoomAB roomAB 100
    (by decide) (by decide) (by decide) (by decide) (by decide)

/-! ### Claim C10 -/

/-- Claim C10 (implicit): the `room_info` snapshot sent to a fresh joiner
lists only the pre-existing members whose transport is open, while its
`roomSize` counts every member regardless of transport state; in the
concrete state whose room holds two closed members, `roomSize` is 3 while
the client list is empty, exceeding its length by more than one. -/
theorem c10_room_info_open_clients_only (st : ServerState) (ws : Conn)
    (rid cidStr : String) (room : Room) (now : Nat)
    (h : roomsGet st.rooms rid = some room)
    (hfresh : ∀ c ∈ room.members, c.cid ≠ ws.cid) :
    (ws.cid, Msg.room_info
        ((room.members.filter (fun c => c.readyState == WS_OPEN)).map Conn.clientId)
        (room.members.length + 1) now)
      ∈ (joinRoom st ws rid cidStr now).2 ∧
    (∃ clients roomSize,
      (joinRoom stTwoClosed connC "r" "C" 5).2.getLast?
        = some (connC.cid, Msg.room_info clients roomSize 5) ∧
      clients.length + 1 < roomSize) := by
  constructor
  · have hany : room.members.any (fun c => c.cid == ws.cid) = false := by
      rw [List.any_eq_false]
      intro c hc
      exact fun hbe => hfresh c hc (beq_iff_eq.mp hbe)
    have hadd : setAdd room.members ws = room.members ++ [ws] := by
      simp [setAdd, hany]
    have hclients : (room.members ++ [ws]).filter
        (fun c => c.cid != ws.cid && c.readyState == WS_OPEN)
        = room.members.filter (fun c => c.readyState == WS_OPEN) := by
      rw [List.filter_append]
      have h1 : [ws].filter (fun c => c.cid != ws.cid && c.readyState == WS_OPEN)
          = [] := by
        simp [List.filter]
      have h2 : room.members.filter (fun c => c.cid != ws.cid && c.readyState == WS_OPEN)
          = room.members.filter (fun c => c.readyState == WS_OPEN) :=
        List.filter_congr (fun c hc => by simp [bne_iff_ne.mpr (hfresh c hc)])
      rw [h1, h2, List.append_nil]
    have hlen : (room.members ++ [ws]).length = room.members.length + 1 := by
      simp
    simp only [joinRoom, h, hadd, hclients, hlen]
    exact List.mem_cons_of_mem _ (List.mem_append_right _ (List.mem_singleton.mpr rfl))
  · exact ⟨[], 3, by decide, by decide⟩

/-- Witness for `c10_room_info_open_clients_only`: `connC` joins the room
holding only the closed transports `connD` and `connE`. -/
theorem c10_room_info_open_clients_only_witness :
    (connC.cid, Msg.room_info
        ((roomTwoClosed.members.filter (fun c => c.readyState == WS_OPEN)).map
          Conn.clientId)
        (roomTwoClosed.members.length + 1) 5)
      ∈ (joinRoom stTwoClosed connC "r" "C" 5).2 :=
  (c10_room_info_open_clients_only stTwoClosed connC "r" "C" roomTwoClosed 5
    (by decide) (by decide)).1

end VideoSync
